import Mathlib

/-!
Verification development for the SolarSystem3D program (`src/main.cpp`).

The program's floating-point values are modelled as rationals, and the C
library trigonometric functions (`cosf`, `sinf`, `cos`, `sin`) are
abstracted as function parameters `cosf sinf : ℚ → ℚ`: every property
checked here is either independent of the trigonometric values or is
stated under explicit hypotheses about them (`cosf 0 = 1`, …).  Machine
`unsigned int` / `int` values are modelled as `ℕ` / `ℤ`; none of the
verified properties involves quantities anywhere near the 32-bit wrap.
`std::vector` becomes `List`, with `push_back` as append.
-/

/-- The program's `#define M_PI 3.14159265358979323846`. -/
def M_PI : ℚ := 3.14159265358979323846

/-- `glm::vec3`, over the rational model of `float`. -/
structure Vec3 where
  x : ℚ
  y : ℚ
  z : ℚ
  deriving DecidableEq, Inhabited

instance : Add Vec3 := ⟨fun a b => ⟨a.x + b.x, a.y + b.y, a.z + b.z⟩⟩

instance : Zero Vec3 := ⟨⟨0, 0, 0⟩⟩

theorem Vec3.add_def (a b : Vec3) : a + b = ⟨a.x + b.x, a.y + b.y, a.z + b.z⟩ := rfl

theorem Vec3.zero_def : (0 : Vec3) = ⟨0, 0, 0⟩ := rfl

theorem Vec3.zero_add' (v : Vec3) : (0 : Vec3) + v = v := by
  cases v; simp [Vec3.add_def, Vec3.zero_def]

/-! ## Sphere mesh generator (`createSphere`, main.cpp lines 437-498) -/

/-- The 8 floats `createSphere` pushes for the vertex at stack ring `i`,
sector column `j`: position `(x, y, z)`, normal `(nx, ny, nz)`, texture
coordinates `(s, t)`. -/
def vert8 (cosf sinf : ℚ → ℚ) (radius : ℚ) (sectorCount stackCount i j : ℕ) : List ℚ :=
  let sectorStep : ℚ := 2 * M_PI / (sectorCount : ℚ)
  let stackStep : ℚ := M_PI / (stackCount : ℚ)
  let stackAngle : ℚ := M_PI / 2 - (i : ℚ) * stackStep
  let xy : ℚ := radius * cosf stackAngle
  let y : ℚ := radius * sinf stackAngle
  let sectorAngle : ℚ := (j : ℚ) * sectorStep
  let x : ℚ := xy * cosf sectorAngle
  let z : ℚ := xy * sinf sectorAngle
  let lengthInv : ℚ := 1 / radius
  let nx : ℚ := x * lengthInv
  let ny : ℚ := y * lengthInv
  let nz : ℚ := z * lengthInv
  let s : ℚ := 1 - (j : ℚ) / (sectorCount : ℚ)
  let t : ℚ := 1 - (i : ℚ) / (stackCount : ℚ)
  [x, y, z, nx, ny, nz, s, t]

/-- The triangle indices `createSphere` pushes for stack `i`, sector `j`
(`k1 = i*(sectorCount+1)+j`, `k2 = k1+sectorCount+1`).  The first stack
row (`i == 0`) and the last one (`i == stackCount-1`) each emit a single
triangle per sector quad. -/
def quadIndices (sectorCount stackCount i j : ℕ) : List ℕ :=
  let k1 := i * (sectorCount + 1) + j
  let k2 := k1 + sectorCount + 1
  (if i ≠ 0 then [k1, k2, k1 + 1] else []) ++
    (if i ≠ stackCount - 1 then [k1 + 1, k2, k2 + 1] else [])

/-- All vertex floats generated by `createSphere`'s first double loop,
in push order. -/
def sphereVerticesGen (cosf sinf : ℚ → ℚ) (radius : ℚ) (sectorCount stackCount : ℕ) :
    List ℚ :=
  (List.range (stackCount + 1)).flatMap fun i =>
    (List.range (sectorCount + 1)).flatMap fun j =>
      vert8 cosf sinf radius sectorCount stackCount i j

/-- All triangle indices generated by `createSphere`'s second double
loop, in push order. -/
def sphereIndicesGen (sectorCount stackCount : ℕ) : List ℕ :=
  (List.range stackCount).flatMap fun i =>
    (List.range sectorCount).flatMap fun j =>
      quadIndices sectorCount stackCount i j

/-- `createSphere(vertices, indices, radius, sectorCount, stackCount)`:
the two nested loops `push_back` vertex data and then index data onto the
caller-supplied vectors. -/
def createSphere (cosf sinf : ℚ → ℚ) (vertices : List ℚ) (indices : List ℕ)
    (radius : ℚ) (sectorCount stackCount : ℕ) : List ℚ × List ℕ :=
  let vertices' := (List.range (stackCount + 1)).foldl
    (fun acc i => (List.range (sectorCount + 1)).foldl
      (fun acc2 j => acc2 ++ vert8 cosf sinf radius sectorCount stackCount i j) acc)
    vertices
  let indices' := (List.range stackCount).foldl
    (fun acc i => (List.range sectorCount).foldl
      (fun acc2 j => acc2 ++ quadIndices sectorCount stackCount i j) acc)
    indices
  (vertices', indices')

/-! ### List helper lemmas -/

theorem foldl_append_eq_flatMap {β γ : Type} (f : β → List γ) :
    ∀ (l : List β) (acc : List γ),
      l.foldl (fun a b => a ++ f b) acc = acc ++ l.flatMap f := by
  intro l
  induction l with
  | nil => intro acc; simp
  | cons b l ih => intro acc; simp [List.foldl_cons, ih]

theorem sum_map_const_of {β : Type} (c : ℕ) :
    ∀ (l : List β) (f : β → ℕ), (∀ a ∈ l, f a = c) →
      (l.map f).sum = l.length * c := by
  intro l
  induction l with
  | nil => intro f _; simp
  | cons b l ih =>
      intro f h
      simp only [List.map_cons, List.sum_cons, List.length_cons]
      rw [h b (List.mem_cons_self b l), ih f (fun a ha => h a (List.mem_cons_of_mem b ha))]
      ring

theorem sum_map_add_distrib {β : Type} :
    ∀ (l : List β) (f g : β → ℕ),
      (l.map fun a => f a + g a).sum = (l.map f).sum + (l.map g).sum := by
  intro l
  induction l with
  | nil => intro f g; simp
  | cons b l ih => intro f g; simp [ih]; ring

theorem length_flatMap_eq {β γ : Type} :
    ∀ (l : List β) (f : β → List γ),
      (l.flatMap f).length = (l.map fun a => (f a).length).sum := by
  intro l
  induction l with
  | nil => intro f; simp
  | cons b l ih => intro f; simp [List.flatMap_cons, ih]

theorem flatMap_length_const {β γ : Type} (c : ℕ) :
    ∀ (l : List β) (f : β → List γ), (∀ a ∈ l, (f a).length = c) →
      (l.flatMap f).length = l.length * c := by
  intro l f h
  rw [length_flatMap_eq, sum_map_const_of c l _ h]

/-! ### Sphere generator facts -/

theorem vert8_length (cosf sinf : ℚ → ℚ) (radius : ℚ) (sectorCount stackCount i j : ℕ) :
    (vert8 cosf sinf radius sectorCount stackCount i j).length = 8 := rfl

theorem sphereVerticesGen_length (cosf sinf : ℚ → ℚ) (radius : ℚ)
    (sectorCount stackCount : ℕ) :
    (sphereVerticesGen cosf sinf radius sectorCount stackCount).length =
      (stackCount + 1) * ((sectorCount + 1) * 8) := by
  unfold sphereVerticesGen
  rw [flatMap_length_const ((sectorCount + 1) * 8)]
  · simp
  · intro i _
    rw [flatMap_length_const 8]
    · simp
    · intro j _
      exact vert8_length cosf sinf radius sectorCount stackCount i j

theorem quadIndices_length (sectorCount stackCount i j : ℕ) :
    (quadIndices sectorCount stackCount i j).length =
      (if i = 0 then 0 else 3) + (if i = stackCount - 1 then 0 else 3) := by
  unfold quadIndices
  split_ifs with h1 h2 h2 <;> simp_all

theorem sphereRow_length (sectorCount stackCount i : ℕ) :
    ((List.range sectorCount).flatMap fun j =>
        quadIndices sectorCount stackCount i j).length =
      sectorCount * ((if i = 0 then 0 else 3) + (if i = stackCount - 1 then 0 else 3)) := by
  rw [flatMap_length_const ((if i = 0 then 0 else 3) + (if i = stackCount - 1 then 0 else 3))]
  · simp
  · intro j _
    exact quadIndices_length sectorCount stackCount i j

theorem sum_map_range_ne_last (c n : ℕ) :
    ((List.range (n + 1)).map fun i => if i = n then 0 else c).sum = c * n := by
  rw [List.range_succ, List.map_append, List.sum_append]
  simp only [List.map_cons, List.map_nil, if_pos rfl, List.sum_cons, List.sum_nil]
  rw [sum_map_const_of c]
  · simp [mul_comm]
  · intro a ha
    rw [if_neg (Nat.ne_of_lt (List.mem_range.mp ha))]

theorem sum_map_range_ne_first (c n : ℕ) :
    ((List.range (n + 1)).map fun i => if i = 0 then 0 else c).sum = c * n := by
  rw [List.range_succ_eq_map, List.map_cons, List.sum_cons, if_pos rfl, List.map_map]
  rw [sum_map_const_of c]
  · simp [mul_comm]
  · intro a _
    simp [Function.comp]

theorem sphereIndicesGen_length (sectorCount stackCount : ℕ) :
    (sphereIndicesGen sectorCount stackCount).length =
      6 * sectorCount * (stackCount - 1) := by
  unfold sphereIndicesGen
  rw [length_flatMap_eq]
  have hrow : ∀ i, ((List.range sectorCount).flatMap fun j =>
      quadIndices sectorCount stackCount i j).length =
      (if i = 0 then 0 else 3 * sectorCount) +
        (if i = stackCount - 1 then 0 else 3 * sectorCount) := by
    intro i
    rw [sphereRow_length]
    split_ifs <;> ring
  rw [List.map_congr_left fun i _ => hrow i]
  rw [sum_map_add_distrib]
  rcases stackCount with _ | st
  · simp
  · simp only [Nat.add_sub_cancel]
    rw [sum_map_range_ne_first, sum_map_range_ne_last]
    ring

/-- `createSphere` equals appending the generated data onto the passed
vectors: the nested `push_back` loops only ever append. -/
theorem createSphere_eq_append (cosf sinf : ℚ → ℚ) (radius : ℚ)
    (sectorCount stackCount : ℕ) (vertices : List ℚ) (indices : List ℕ) :
    createSphere cosf sinf vertices indices radius sectorCount stackCount =
      (vertices ++ sphereVerticesGen cosf sinf radius sectorCount stackCount,
       indices ++ sphereIndicesGen sectorCount stackCount) := by
  unfold createSphere sphereVerticesGen sphereIndicesGen
  simp only [foldl_append_eq_flatMap]

/-- C1: for every radius > 0 and all sectorCount, stackCount ≥ 3,
`createSphere` produces exactly `(stackCount+1)*(sectorCount+1)` vertices
(8 floats each) and exactly `2*sectorCount*(stackCount-1)` triangles
(3 indices each), the reduced triangle count arising because the first and
last stack rows emit only one triangle per sector quad. -/
theorem claim_C1_sphere_counts (cosf sinf : ℚ → ℚ) (radius : ℚ)
    (sectorCount stackCount : ℕ)
    (hr : 0 < radius) (hsec : 3 ≤ sectorCount) (hst : 3 ≤ stackCount) :
    (sphereVerticesGen cosf sinf radius sectorCount stackCount).length =
      (stackCount + 1) * (sectorCount + 1) * 8 ∧
    (sphereIndicesGen sectorCount stackCount).length =
      2 * sectorCount * (stackCount - 1) * 3 := by
  constructor
  · rw [sphereVerticesGen_length]; ring
  · rw [sphereIndicesGen_length]; ring

theorem claim_C1_sphere_counts_witness :
    (sphereVerticesGen (fun q => q) (fun q => q) 1 3 3).length = (3 + 1) * (3 + 1) * 8 ∧
    (sphereIndicesGen 3 3).length = 2 * 3 * (3 - 1) * 3 :=
  claim_C1_sphere_counts (fun q => q) (fun q => q) 1 3 3 (by norm_num)
    (le_refl 3) (le_refl 3)

/-- C9: `createSphere` appends its generated vertex and index data to the
end of the caller-supplied output vectors without clearing them first: the
result is the prior contents followed by the new data, so the documented
counts hold only when the passed vectors are empty. -/
theorem claim_C9_createSphere_appends (cosf sinf : ℚ → ℚ) (radius : ℚ)
    (sectorCount stackCount : ℕ) (vertices : List ℚ) (indices : List ℕ) :
    createSphere cosf sinf vertices indices radius sectorCount stackCount =
      (vertices ++ sphereVerticesGen cosf sinf radius sectorCount stackCount,
       indices ++ sphereIndicesGen sectorCount stackCount) ∧
    (createSphere cosf sinf vertices indices radius sectorCount stackCount).1.length =
      vertices.length + (stackCount + 1) * (sectorCount + 1) * 8 ∧
    (createSphere cosf sinf vertices indices radius sectorCount stackCount).2.length =
      indices.length + 2 * sectorCount * (stackCount - 1) * 3 := by
  refine ⟨createSphere_eq_append cosf sinf radius sectorCount stackCount vertices indices, ?_, ?_⟩
  · rw [createSphere_eq_append]
    simp only [List.length_append, sphereVerticesGen_length]
    ring
  · rw [createSphere_eq_append]
    simp only [List.length_append, sphereIndicesGen_length]
    ring

/-- C7 counterexample: at the invalid parameter set `sectorCount = 0`
(radius 1, stackCount 3), `createSphere` does not fail with a validation
error — it returns normally, silently producing degenerate geometry:
32 vertex floats and an empty index list (zero triangles). -/
theorem claim_C7_counterexample :
    (createSphere (fun q => q) (fun q => q) [] [] 1 0 3).2 = [] ∧
    (createSphere (fun q => q) (fun q => q) [] [] 1 0 3).1.length = 32 := by
  rw [createSphere_eq_append]
  refine ⟨?_, ?_⟩
  · simp [sphereIndicesGen]
  · simp [sphereVerticesGen_length]

/-- C7 (amended): `createSphere` performs no validation of its
parameters.  For `sectorCount = 0` (and any radius, including
nonpositive ones, which are used as-is) it returns normally rather than
failing: it emits `(stackCount+1)` vertices (8 floats each, one
degenerate column per ring) and zero triangle indices. -/
theorem claim_C7_no_validation (cosf sinf : ℚ → ℚ) (radius : ℚ) (stackCount : ℕ) :
    createSphere cosf sinf [] [] radius 0 stackCount =
      (sphereVerticesGen cosf sinf radius 0 stackCount, []) ∧
    (sphereVerticesGen cosf sinf radius 0 stackCount).length = (stackCount + 1) * 8 ∧
    sphereIndicesGen 0 stackCount = [] := by
  have hidx : sphereIndicesGen 0 stackCount = [] := by simp [sphereIndicesGen]
  refine ⟨?_, ?_, hidx⟩
  · rw [createSphere_eq_append, hidx]
    simp
  · rw [sphereVerticesGen_length]

/-- C10: for all sectorCount ≥ 1 and stackCount ≥ 2, every triangle index
emitted by `createSphere` is strictly less than
`(stackCount+1)*(sectorCount+1)`, the number of vertices generated, so
every index references an existing vertex. -/
theorem claim_C10_indices_in_bounds (sectorCount stackCount : ℕ)
    (hsec : 1 ≤ sectorCount) (hst : 2 ≤ stackCount)
    (x : ℕ) (hx : x ∈ sphereIndicesGen sectorCount stackCount) :
    x < (stackCount + 1) * (sectorCount + 1) := by
  unfold sphereIndicesGen at hx
  rw [List.mem_flatMap] at hx
  obtain ⟨i, hi, hx⟩ := hx
  rw [List.mem_flatMap] at hx
  obtain ⟨j, hj, hx⟩ := hx
  rw [List.mem_range] at hi hj
  have hexp : (i + 2) * (sectorCount + 1) =
      i * (sectorCount + 1) + 2 * sectorCount + 2 := by ring
  have hmono : (i + 2) * (sectorCount + 1) ≤ (stackCount + 1) * (sectorCount + 1) :=
    Nat.mul_le_mul_right _ (by omega)
  have hbound : i * (sectorCount + 1) + j + sectorCount + 3 ≤
      (stackCount + 1) * (sectorCount + 1) := by
    have hj' : j + 1 ≤ sectorCount := hj
    linarith
  simp only [quadIndices] at hx
  rw [List.mem_append] at hx
  rcases hx with hx | hx
  · split_ifs at hx with h
    · simp only [List.mem_cons, List.not_mem_nil, or_false] at hx
      rcases hx with rfl | rfl | rfl <;> linarith
    · exact absurd hx (List.not_mem_nil x)
  · split_ifs at hx with h
    · simp only [List.mem_cons, List.not_mem_nil, or_false] at hx
      rcases hx with rfl | rfl | rfl <;> linarith
    · exact absurd hx (List.not_mem_nil x)

theorem claim_C10_indices_in_bounds_witness :
    2 ∈ sphereIndicesGen 1 2 ∧ 2 < (2 + 1) * (1 + 1) :=
  ⟨by decide, claim_C10_indices_in_bounds 1 2 (by decide) (by decide) 2 (by decide)⟩

/-! ## Orbital kinematics (main.cpp lines 50-58, 166-187, 252-266, 332-357, 402-422) -/

/-- `struct Planet` (main.cpp lines 50-58).  The GL texture handle is an
opaque runtime id and is omitted; the `orbitAngle` field is overwritten
every frame with `currentFrame * orbitSpeed` (line 254) and is modelled
as the function `orbitAngle` below. -/
structure Planet where
  orbitRadius : ℚ
  orbitSpeed : ℚ
  selfRotateSpeed : ℚ
  size : ℚ
  color : Vec3
  deriving DecidableEq, Inhabited

/-- The `planets` roster (main.cpp lines 166-187): Sun, Mercury, Venus,
Earth, Moon, Mars, Jupiter, Saturn, Uranus, Neptune. -/
def planets : List Planet :=
  [ ⟨0, 0, 0.5, 0.625, ⟨1, 0.9, 0.3⟩⟩,
    ⟨0.975, 4.15, 1, 0.045, ⟨0.7, 0.7, 0.7⟩⟩,
    ⟨1.8, 1.62, 1.2, 0.1125, ⟨1, 0.8, 0.5⟩⟩,
    ⟨2.5, 1, 1.5, 0.125, ⟨0.5, 0.7, 1⟩⟩,
    ⟨0.2, 12, 2, 0.0325, ⟨0.8, 0.8, 0.8⟩⟩,
    ⟨3.8, 0.53, 1, 0.0675, ⟨1, 0.5, 0.3⟩⟩,
    ⟨13, 0.08, 0.8, 0.25, ⟨1, 0.8, 0.5⟩⟩,
    ⟨23.95, 0.03, 0.7, 0.2125, ⟨1, 0.9, 0.6⟩⟩,
    ⟨47.95, 0.011, 0.6, 0.15, ⟨0.7, 0.9, 1⟩⟩,
    ⟨75.175, 0.006, 0.5, 0.145, ⟨0.5, 0.7, 1⟩⟩ ]

/-- Per-frame orbit angle recompute (line 254):
`planets[i].orbitAngle = currentFrame * planets[i].orbitSpeed`. -/
def orbitAngle (t : ℚ) (p : Planet) : ℚ := t * p.orbitSpeed

/-- The parent-relative circular-orbit offset
`(cos(orbitAngle)*orbitRadius, 0, sin(orbitAngle)*orbitRadius)`
(lines 257-266, 341-345, 352-356). -/
def orbitOffset (cosf sinf : ℚ → ℚ) (p : Planet) (t : ℚ) : Vec3 :=
  ⟨cosf (orbitAngle t p) * p.orbitRadius, 0, sinf (orbitAngle t p) * p.orbitRadius⟩

/-- `earthPos` as recomputed every frame (lines 257-261). -/
def earthPos (cosf sinf : ℚ → ℚ) (ps : List Planet) (t : ℚ) : Vec3 :=
  orbitOffset cosf sinf (ps.getD 3 default) t

/-- `moonPos` as recomputed every frame (lines 262-266):
Earth's resolved position plus the Moon's own parent-relative offset. -/
def moonPos (cosf sinf : ℚ → ℚ) (ps : List Planet) (t : ℚ) : Vec3 :=
  earthPos cosf sinf ps t + orbitOffset cosf sinf (ps.getD 4 default) t

/-- The world position given to body `i`'s model matrix in the draw loop
(lines 332-357): the Sun at the origin, the Moon parented to Earth's
resolved position, every other body on a circle around the origin. -/
def bodyPosition (cosf sinf : ℚ → ℚ) (ps : List Planet) (t : ℚ) (i : ℕ) : Vec3 :=
  if i = 0 then ⟨0, 0, 0⟩
  else if i = 4 then earthPos cosf sinf ps t + orbitOffset cosf sinf (ps.getD 4 default) t
  else if i = 3 then earthPos cosf sinf ps t
  else orbitOffset cosf sinf (ps.getD i default) t

/-- The followed body's resolved position recomputed inside
`updateCameraFollow` (lines 404-422), using the same three-way split. -/
def followTargetPos (cosf sinf : ℚ → ℚ) (ps : List Planet) (t : ℚ) (idx : ℕ) : Vec3 :=
  if idx = 4 then earthPos cosf sinf ps t + orbitOffset cosf sinf (ps.getD 4 default) t
  else if idx = 3 then earthPos cosf sinf ps t
  else orbitOffset cosf sinf (ps.getD idx default) t

/-- The parent whose position body `i`'s orbit is relative to: Earth for
the Moon (index 4), the Sun (the origin) for every other orbiter. -/
def parentPosition (cosf sinf : ℚ → ℚ) (ps : List Planet) (t : ℚ) (i : ℕ) : Vec3 :=
  if i = 4 then bodyPosition cosf sinf ps t 3 else bodyPosition cosf sinf ps t 0

theorem Vec3.mk_zero_add (v : Vec3) : (⟨0, 0, 0⟩ : Vec3) + v = v := by
  cases v; simp [Vec3.add_def]

/-- A concrete rational stand-in for cosine, satisfying `cosSample 0 = 1`
and `cosSample 1 = -1`, used to instantiate the abstract trigonometric
parameters on concrete inputs. -/
def cosSample : ℚ → ℚ := fun q => 1 - 2 * q

/-- A concrete rational stand-in for sine, satisfying `sinSample 0 = 0`
and `sinSample 1 = 0`. -/
def sinSample : ℚ → ℚ := fun q => q * (1 - q)

/-- C2: for every non-star body `i` (1 ≤ i ≤ 9) and every simulation time
`t`, the resolved world position equals the parent's position plus
`(orbitRadius*cos(t*orbitAngularSpeed), 0, orbitRadius*sin(t*orbitAngularSpeed))`;
the orbit angle is recomputed from `t` each frame (`orbitAngle t p = t *
orbitSpeed`, never integrated incrementally); for a body of radius `R`
and angular speed `w`, the parent-relative offset at `t = 0` is
`(R, 0, 0)` and at `t = π/w` it is `(-R, 0, 0)` (under the defining
properties of cosine and sine at `0` and `π`). -/
theorem claim_C2_orbit_positions (cosf sinf : ℚ → ℚ) (ps : List Planet) (t : ℚ)
    (i : ℕ) (h1 : 1 ≤ i) (h9 : i ≤ 9) (piQ w : ℚ) (hw : w ≠ 0)
    (hc0 : cosf 0 = 1) (hs0 : sinf 0 = 0)
    (hcpi : cosf piQ = -1) (hspi : sinf piQ = 0) :
    bodyPosition cosf sinf ps t i =
      parentPosition cosf sinf ps t i + orbitOffset cosf sinf (ps.getD i default) t ∧
    orbitAngle t (ps.getD i default) = t * (ps.getD i default).orbitSpeed ∧
    (∀ p : Planet, orbitOffset cosf sinf p 0 = ⟨p.orbitRadius, 0, 0⟩) ∧
    (∀ p : Planet, p.orbitSpeed = w →
      orbitOffset cosf sinf p (piQ / w) = ⟨-p.orbitRadius, 0, 0⟩) := by
  have hi0 : i ≠ 0 := by omega
  refine ⟨?_, rfl, ?_, ?_⟩
  · by_cases hi4 : i = 4
    · subst hi4
      simp [bodyPosition, parentPosition]
    · by_cases hi3 : i = 3
      · subst hi3
        simp [bodyPosition, parentPosition, earthPos, Vec3.mk_zero_add]
      · simp [bodyPosition, parentPosition, hi0, hi3, hi4, Vec3.mk_zero_add]
  · intro p
    simp [orbitOffset, orbitAngle, hc0, hs0]
  · intro p hp
    have hpi : piQ / w * p.orbitSpeed = piQ := by
      rw [hp]
      exact div_mul_cancel₀ piQ hw
    simp [orbitOffset, orbitAngle, hpi, hcpi, hspi]

theorem claim_C2_orbit_positions_witness :
    bodyPosition cosSample sinSample planets 0 1 =
      parentPosition cosSample sinSample planets 0 1 +
        orbitOffset cosSample sinSample (planets.getD 1 default) 0 ∧
    orbitOffset cosSample sinSample (planets.getD 1 default) 0 = ⟨0.975, 0, 0⟩ ∧
    orbitOffset cosSample sinSample (planets.getD 1 default) (1 / 4.15) =
      ⟨-0.975, 0, 0⟩ := by
  have h := claim_C2_orbit_positions cosSample sinSample planets 0 1
    (by norm_num) (by norm_num) 1 4.15 (by norm_num)
    (by norm_num [cosSample]) (by norm_num [sinSample])
    (by norm_num [cosSample]) (by norm_num [sinSample])
  refine ⟨h.1, ?_, ?_⟩
  · rw [h.2.2.1 (planets.getD 1 default)]
    simp [planets]
  · rw [h.2.2.2 (planets.getD 1 default) (by simp [planets])]
    simp [planets]

/-- C3: at every simulation time, the Moon's resolved world position
(as drawn, and as targeted by the follow camera) equals Earth's current
resolved position — not Earth's orbit center — plus the Moon's own
parent-relative circular-orbit offset; if Earth's orbit parameters are
zero, the Moon orbits the origin. -/
theorem claim_C3_moon_parenting (cosf sinf : ℚ → ℚ) (ps : List Planet) (t : ℚ) :
    moonPos cosf sinf ps t =
      earthPos cosf sinf ps t + orbitOffset cosf sinf (ps.getD 4 default) t ∧
    bodyPosition cosf sinf ps t 4 = moonPos cosf sinf ps t ∧
    followTargetPos cosf sinf ps t 4 = moonPos cosf sinf ps t ∧
    ((ps.getD 3 default).orbitRadius = 0 → (ps.getD 3 default).orbitSpeed = 0 →
      moonPos cosf sinf ps t = orbitOffset cosf sinf (ps.getD 4 default) t) := by
  refine ⟨rfl, rfl, rfl, ?_⟩
  intro hR _
  have hE : earthPos cosf sinf ps t = ⟨0, 0, 0⟩ := by
    unfold earthPos orbitOffset
    rw [hR]
    simp
  rw [moonPos, hE, Vec3.mk_zero_add]

/-- The roster with Earth's orbit parameters zeroed, for instantiating
the Moon-orbits-the-origin consequence on a concrete input. -/
def planetsEarthFixed : List Planet :=
  planets.set 3 { (planets.getD 3 default) with orbitRadius := 0, orbitSpeed := 0 }

theorem claim_C3_moon_parenting_witness :
    moonPos cosSample sinSample planetsEarthFixed 1 =
      orbitOffset cosSample sinSample (planetsEarthFixed.getD 4 default) 1 := by
  have h := claim_C3_moon_parenting cosSample sinSample planetsEarthFixed 1
  exact h.2.2.2 (by simp [planetsEarthFixed, planets]) (by simp [planetsEarthFixed, planets])

/-! ## Camera controller state machine (main.cpp lines 24-27, 38-44,
63-71, 218-246, 542-605) -/

/-- `enum CameraMode { FOLLOW_PLANET, FREE }` (line 25). -/
inductive CameraMode where
  | FOLLOW_PLANET
  | FREE
  deriving DecidableEq, Inhabited

/-- The per-frame keyboard sample the main loop reads via `glfwGetKey`
(lines 221-228). -/
structure FrameInput where
  keyW : Bool
  keyA : Bool
  keyS : Bool
  keyD : Bool
  keyQ : Bool
  keyE : Bool
  deriving DecidableEq

/-- `wasdPressed` (lines 221-224). -/
def wasdPressed (inp : FrameInput) : Bool :=
  inp.keyW || inp.keyA || inp.keyS || inp.keyD

/-- The program's global mutable state driving camera mode, body
following and input edge detection (lines 26-27, 38-40, 64-71), together
with the free camera's yaw/pitch/zoom.  The free camera's
position/front/up vectors play no part in the claims checked here and
are omitted. -/
structure GlobalState where
  cameraMode : CameraMode
  followedPlanetIdx : ℤ
  qPressedLast : Bool
  ePressedLast : Bool
  wasdPressedLast : Bool
  firstMouse : Bool
  lastX : ℚ
  lastY : ℚ
  orbitYaw : ℚ
  orbitPitch : ℚ
  orbitDistance : ℚ
  camYaw : ℚ
  camPitch : ℚ
  zoom : ℚ
  deriving DecidableEq

/-- `Q` handler body (lines 231-232):
`followedPlanetIdx--; if (followedPlanetIdx < 1) followedPlanetIdx = 9;` -/
def prevBodyIdx (i : ℤ) : ℤ := if i - 1 < 1 then 9 else i - 1

/-- `E` handler body (lines 236-237):
`followedPlanetIdx++; if (followedPlanetIdx > 9) followedPlanetIdx = 1;` -/
def nextBodyIdx (i : ℤ) : ℤ := if i + 1 > 9 then 1 else i + 1

/-- One iteration of the main loop's input-handling block (lines
218-246): edge-triggered Q/E planet switching (each also re-entering
FollowMode), update of the Q/E edge flags, then the FollowMode→FreeMode
switch on an edge-triggered WASD press, then the WASD edge flag update. -/
def stepFrame (st : GlobalState) (inp : FrameInput) : GlobalState :=
  let qPressed := inp.keyQ
  let ePressed := inp.keyE
  let st1 := if qPressed && !st.qPressedLast then
      { st with followedPlanetIdx := prevBodyIdx st.followedPlanetIdx,
                cameraMode := CameraMode.FOLLOW_PLANET }
    else st
  let st2 := if ePressed && !st1.ePressedLast then
      { st1 with followedPlanetIdx := nextBodyIdx st1.followedPlanetIdx,
                 cameraMode := CameraMode.FOLLOW_PLANET }
    else st1
  let st3 := { st2 with qPressedLast := qPressed, ePressedLast := ePressed }
  let st4 := if st3.cameraMode = CameraMode.FOLLOW_PLANET ∧
      wasdPressed inp = true ∧ st3.wasdPressedLast = false then
      { st3 with cameraMode := CameraMode.FREE }
    else st3
  { st4 with wasdPressedLast := wasdPressed inp }

/-- Modelled from the spec: `Camera::ProcessMouseMovement` of the
external `learnopengl/camera.h` collaborator (its source is not part of
this repository): free-look mouse movement adjusts yaw and pitch by the
offsets scaled by a fixed sensitivity, yaw unclamped, pitch clamped to
±89°. -/
def processMouseMovement (st : GlobalState) (xoffset yoffset : ℚ) : GlobalState :=
  let st := { st with camYaw := st.camYaw + xoffset * 0.1,
                      camPitch := st.camPitch + yoffset * 0.1 }
  let st := if st.camPitch > 89 then { st with camPitch := 89 } else st
  if st.camPitch < -89 then { st with camPitch := -89 } else st

/-- Modelled from the spec: `Camera::ProcessMouseScroll` of the external
camera collaborator: scroll adjusts the field of view, clamped to the
fixed range [1°, 45°]. -/
def processMouseScroll (st : GlobalState) (yoffset : ℚ) : GlobalState :=
  let st := { st with zoom := st.zoom - yoffset }
  let st := if st.zoom < 1 then { st with zoom := 1 } else st
  if st.zoom > 45 then { st with zoom := 45 } else st

/-- `mouse_callback` (lines 564-593): first-mouse latch, offset
computation from the last cursor position, then per-mode yaw/pitch
update (orbit state in FollowMode with sensitivity 0.15 and the two
pitch-clamp `if`s; free-look state in FreeMode). -/
def mouse_callback (st : GlobalState) (xpos ypos : ℚ) : GlobalState :=
  let st0 := if st.firstMouse then
      { st with lastX := xpos, lastY := ypos, firstMouse := false }
    else st
  let xoffset := xpos - st0.lastX
  let yoffset := st0.lastY - ypos
  let st1 := { st0 with lastX := xpos, lastY := ypos }
  if st1.cameraMode = CameraMode.FREE then
    processMouseMovement st1 xoffset yoffset
  else if st1.cameraMode = CameraMode.FOLLOW_PLANET then
    let sensitivity : ℚ := 0.15
    let st2 := { st1 with orbitYaw := st1.orbitYaw + xoffset * sensitivity,
                          orbitPitch := st1.orbitPitch + yoffset * sensitivity }
    let st3 := if st2.orbitPitch > 89 then { st2 with orbitPitch := 89 } else st2
    if st3.orbitPitch < -89 then { st3 with orbitPitch := -89 } else st3
  else st1

/-- `scroll_callback` (lines 595-605): FreeMode scroll adjusts the field
of view (external collaborator, clamped); FollowMode scroll adjusts the
orbit distance by `-yoffset * 0.2`, clamped to [0.5, 30]. -/
def scroll_callback (st : GlobalState) (xoffset yoffset : ℚ) : GlobalState :=
  if st.cameraMode = CameraMode.FREE then
    processMouseScroll st yoffset
  else if st.cameraMode = CameraMode.FOLLOW_PLANET then
    let st1 := { st with orbitDistance := st.orbitDistance - yoffset * 0.2 }
    let st2 := if st1.orbitDistance < 0.5 then { st1 with orbitDistance := 0.5 } else st1
    if st2.orbitDistance > 30 then { st2 with orbitDistance := 30 } else st2
  else st

/-- An input delivered to the program: a main-loop keyboard sample, a
cursor-position event, or a scroll event. -/
inductive InputEvent where
  | frame (inp : FrameInput)
  | mouse (xpos ypos : ℚ)
  | scroll (xoffset yoffset : ℚ)

def stepEvent (st : GlobalState) (e : InputEvent) : GlobalState :=
  match e with
  | InputEvent.frame inp => stepFrame st inp
  | InputEvent.mouse x y => mouse_callback st x y
  | InputEvent.scroll x y => scroll_callback st x y

def runEvents (st : GlobalState) (evs : List InputEvent) : GlobalState :=
  evs.foldl stepEvent st

/-- The program's initial global state (lines 26-27, 38-40, 64-71):
FollowMode on Earth (index 3), orbitPitch 20°, orbitDistance 3,
lastX/lastY at the screen centre (640, 360), all edge flags clear.
The free camera's yaw −90°, pitch 0° and field of view 45° (the top of
its clamped range) are those of the external camera collaborator,
modelled from the spec. -/
def initialState : GlobalState :=
  { cameraMode := CameraMode.FOLLOW_PLANET
    followedPlanetIdx := 3
    qPressedLast := false
    ePressedLast := false
    wasdPressedLast := false
    firstMouse := true
    lastX := 640
    lastY := 360
    orbitYaw := 0
    orbitPitch := 20
    orbitDistance := 3
    camYaw := -90
    camPitch := 0
    zoom := 45 }

/-- The documented clamped ranges (§3, §4.4): orbitPitch ∈ [−89°, 89°],
orbitDistance ∈ [0.5, 30], field of view ∈ [1°, 45°]. -/
def inClampedRanges (st : GlobalState) : Prop :=
  -89 ≤ st.orbitPitch ∧ st.orbitPitch ≤ 89 ∧
  0.5 ≤ st.orbitDistance ∧ st.orbitDistance ≤ 30 ∧
  1 ≤ st.zoom ∧ st.zoom ≤ 45

theorem stepFrame_preserves_ranges (st : GlobalState) (inp : FrameInput)
    (h : inClampedRanges st) : inClampedRanges (stepFrame st inp) := by
  unfold inClampedRanges at h ⊢
  simp only [stepFrame]
  split_ifs <;> exact h

theorem mouse_callback_preserves_ranges (st : GlobalState) (xpos ypos : ℚ)
    (h : inClampedRanges st) : inClampedRanges (mouse_callback st xpos ypos) := by
  obtain ⟨h1, h2, h3, h4, h5, h6⟩ := h
  unfold inClampedRanges
  simp only [mouse_callback, processMouseMovement]
  split_ifs <;> (try dsimp only at *) <;>
    refine ⟨?_, ?_, ?_, ?_, ?_, ?_⟩ <;>
    first
      | assumption
      | linarith

theorem scroll_callback_preserves_ranges (st : GlobalState) (xoffset yoffset : ℚ)
    (h : inClampedRanges st) : inClampedRanges (scroll_callback st xoffset yoffset) := by
  obtain ⟨h1, h2, h3, h4, h5, h6⟩ := h
  unfold inClampedRanges
  simp only [scroll_callback, processMouseScroll]
  split_ifs <;> (try dsimp only at *) <;>
    refine ⟨?_, ?_, ?_, ?_, ?_, ?_⟩ <;>
    first
      | assumption
      | linarith

theorem stepEvent_preserves_ranges (st : GlobalState) (e : InputEvent)
    (h : inClampedRanges st) : inClampedRanges (stepEvent st e) := by
  cases e with
  | frame inp => exact stepFrame_preserves_ranges st inp h
  | mouse x y => exact mouse_callback_preserves_ranges st x y h
  | scroll x y => exact scroll_callback_preserves_ranges st x y h

theorem runEvents_preserves_ranges (evs : List InputEvent) :
    ∀ st : GlobalState, inClampedRanges st → inClampedRanges (runEvents st evs) := by
  induction evs with
  | nil => intro st h; exact h
  | cons e evs ih =>
      intro st h
      exact ih (stepEvent st e) (stepEvent_preserves_ranges st e h)

/-- C4: after any sequence of mouse and scroll inputs (interleaved with
main-loop key samples), however extreme, the follow-mode camera state
stays within its documented clamped ranges: orbitPitch ∈ [−89°, 89°],
orbitDistance ∈ [0.5, 30.0], and the field of view within its fixed
clamped range [1°, 45°]. -/
theorem claim_C4_camera_clamped (evs : List InputEvent) :
    inClampedRanges (runEvents initialState evs) :=
  runEvents_preserves_ranges evs initialState
    (by norm_num [inClampedRanges, initialState])

/-- C5: edge-triggered nextBody (E) / previousBody (Q) input moves the
followed-body index by ±1 with wrapping over the cycle 1..9 only, never
reaching the star at index 0; previousBody once from index 1 yields 9,
nextBody once from index 9 yields 1, and nextBody nine times from
index 3 returns to index 3; a held key (edge flag already set) changes
nothing. -/
theorem claim_C5_body_cycling (st : GlobalState) (inp : FrameInput) :
    (inp.keyQ = true → st.qPressedLast = false →
      ¬(inp.keyE = true ∧ st.ePressedLast = false) →
      (stepFrame st inp).followedPlanetIdx = prevBodyIdx st.followedPlanetIdx) ∧
    (inp.keyE = true → st.ePressedLast = false →
      ¬(inp.keyQ = true ∧ st.qPressedLast = false) →
      (stepFrame st inp).followedPlanetIdx = nextBodyIdx st.followedPlanetIdx) ∧
    (¬(inp.keyQ = true ∧ st.qPressedLast = false) →
      ¬(inp.keyE = true ∧ st.ePressedLast = false) →
      (stepFrame st inp).followedPlanetIdx = st.followedPlanetIdx) ∧
    (∀ i : ℤ, 1 ≤ i → i ≤ 9 →
      1 ≤ nextBodyIdx i ∧ nextBodyIdx i ≤ 9 ∧
      1 ≤ prevBodyIdx i ∧ prevBodyIdx i ≤ 9) ∧
    prevBodyIdx 1 = 9 ∧ nextBodyIdx 9 = 1 ∧ nextBodyIdx^[9] (3 : ℤ) = 3 := by
  refine ⟨?_, ?_, ?_, ?_, by decide, by decide, by decide⟩
  · intro hq hql hne
    simp only [stepFrame, hq, hql]
    split_ifs <;> simp_all
  · intro he hel hnq
    simp only [stepFrame, he, hel]
    split_ifs <;> simp_all
  · intro hnq hne
    simp only [stepFrame]
    split_ifs <;> simp_all
  · intro i h1 h9
    unfold nextBodyIdx prevBodyIdx
    split_ifs <;> omega

theorem claim_C5_body_cycling_witness :
    (stepFrame initialState ⟨false, false, false, false, true, false⟩).followedPlanetIdx =
      prevBodyIdx initialState.followedPlanetIdx ∧
    prevBodyIdx 1 = 9 ∧ nextBodyIdx 9 = 1 ∧ nextBodyIdx^[9] (3 : ℤ) = 3 := by
  have h := claim_C5_body_cycling initialState ⟨false, false, false, false, true, false⟩
  exact ⟨h.1 rfl rfl (by simp), h.2.2.2.2.1, h.2.2.2.2.2.1, h.2.2.2.2.2.2⟩

/-- C6: the camera mode transitions from FollowMode to FreeMode exactly
on an edge-triggered directional movement (WASD) key press while in
FollowMode, and never transitions from FreeMode back to FollowMode
except via an edge-triggered nextBody/previousBody (Q/E) input; the
mouse and scroll callbacks never change the mode. -/
theorem claim_C6_mode_transitions (st : GlobalState) (inp : FrameInput) :
    (st.cameraMode = CameraMode.FOLLOW_PLANET →
      ((stepFrame st inp).cameraMode = CameraMode.FREE ↔
        (wasdPressed inp = true ∧ st.wasdPressedLast = false))) ∧
    (st.cameraMode = CameraMode.FREE →
      (stepFrame st inp).cameraMode = CameraMode.FOLLOW_PLANET →
      ((inp.keyQ = true ∧ st.qPressedLast = false) ∨
        (inp.keyE = true ∧ st.ePressedLast = false))) ∧
    (∀ x y, (mouse_callback st x y).cameraMode = st.cameraMode) ∧
    (∀ x y, (scroll_callback st x y).cameraMode = st.cameraMode) := by
  refine ⟨?_, ?_, ?_, ?_⟩
  · intro hmode
    simp only [stepFrame]
    split_ifs <;> simp_all
  · intro hmode hres
    by_contra hcon
    push_neg at hcon
    simp only [stepFrame] at hres
    split_ifs at hres <;> simp_all
  · intro x y
    simp only [mouse_callback, processMouseMovement]
    split_ifs <;> simp_all
  · intro x y
    simp only [scroll_callback, processMouseScroll]
    split_ifs <;> simp_all

theorem claim_C6_mode_transitions_witness :
    (stepFrame initialState ⟨true, false, false, false, false, false⟩).cameraMode =
      CameraMode.FREE :=
  ((claim_C6_mode_transitions initialState
      ⟨true, false, false, false, false, false⟩).1 rfl).mpr ⟨rfl, rfl⟩

/-! ## Asteroid belt generation (main.cpp lines 190-204)

The C library `rand()` is abstracted as a stream `rng : ℕ → ℕ` of values
indexed by call number, each bounded by `RAND_MAX`; the loop body for
asteroid `i` makes its three calls at stream positions `3*i`, `3*i+1`
and `3*i+2` (radius, height, scale, in program order).  `glm::two_pi`
is abstracted as the parameter `twoPi`. -/

/-- `angle = ((float)i / asteroidCount) * two_pi` (line 194) — evenly
spaced, not random. -/
def asteroidAngle (count i : ℕ) (twoPi : ℚ) : ℚ := ((i : ℚ) / (count : ℚ)) * twoPi

/-- `radius = 5.5f + rand()/RAND_MAX * 2.5f` (line 195). -/
def asteroidRadius (rng : ℕ → ℕ) (RAND_MAX : ℕ) (i : ℕ) : ℚ :=
  5.5 + (rng (3 * i) : ℚ) / (RAND_MAX : ℚ) * 2.5

/-- `height = (rand()/RAND_MAX - 0.5f) * 0.25f` (line 196). -/
def asteroidHeight (rng : ℕ → ℕ) (RAND_MAX : ℕ) (i : ℕ) : ℚ :=
  ((rng (3 * i + 1) : ℚ) / (RAND_MAX : ℚ) - 0.5) * 0.25

/-- `scale = 0.02f + rand()/RAND_MAX * 0.0175f` (line 202). -/
def asteroidScale (rng : ℕ → ℕ) (RAND_MAX : ℕ) (i : ℕ) : ℚ :=
  0.02 + (rng (3 * i + 2) : ℚ) / (RAND_MAX : ℚ) * 0.0175

/-- The position pushed for asteroid `i` (lines 197-201):
`(cos(angle)*radius, height, sin(angle)*radius)`. -/
def asteroidPosition (cosf sinf : ℚ → ℚ) (twoPi : ℚ) (rng : ℕ → ℕ)
    (RAND_MAX count i : ℕ) : Vec3 :=
  ⟨cosf (asteroidAngle count i twoPi) * asteroidRadius rng RAND_MAX i,
   asteroidHeight rng RAND_MAX i,
   sinf (asteroidAngle count i twoPi) * asteroidRadius rng RAND_MAX i⟩

/-- `asteroidPositions` as filled by the generation loop (lines 191-204). -/
def asteroidPositions (cosf sinf : ℚ → ℚ) (twoPi : ℚ) (rng : ℕ → ℕ)
    (RAND_MAX count : ℕ) : List Vec3 :=
  (List.range count).map (asteroidPosition cosf sinf twoPi rng RAND_MAX count)

/-- `asteroidScales` as filled by the generation loop (lines 192-204). -/
def asteroidScales (rng : ℕ → ℕ) (RAND_MAX count : ℕ) : List ℚ :=
  (List.range count).map (asteroidScale rng RAND_MAX)

/-- C8: asteroid generation produces exactly the requested count of
instances; the angle of instance `i` is the deterministic, evenly spaced
`(i/count) * 2π`, with only the radius offset, vertical offset and scale
drawn from the random source; every generated radius lies within the
band `[5.5, 8.0]` (= `[innerRadius, outerRadius]`); and the generated
lists depend only on the first `3*count` values of the random stream, so
a fixed seed (fixed stream) reproduces the same instance list. -/
theorem claim_C8_asteroid_field (cosf sinf : ℚ → ℚ) (twoPi : ℚ) (rng : ℕ → ℕ)
    (RAND_MAX count : ℕ) (hbound : ∀ n, rng n ≤ RAND_MAX) :
    (asteroidPositions cosf sinf twoPi rng RAND_MAX count).length = count ∧
    (asteroidScales rng RAND_MAX count).length = count ∧
    (∀ i, i < count →
      (asteroidPositions cosf sinf twoPi rng RAND_MAX count).getD i default =
        ⟨cosf (((i : ℚ) / (count : ℚ)) * twoPi) * asteroidRadius rng RAND_MAX i,
         asteroidHeight rng RAND_MAX i,
         sinf (((i : ℚ) / (count : ℚ)) * twoPi) * asteroidRadius rng RAND_MAX i⟩) ∧
    (∀ i, 5.5 ≤ asteroidRadius rng RAND_MAX i ∧ asteroidRadius rng RAND_MAX i ≤ 8) ∧
    (∀ rng2 : ℕ → ℕ, (∀ n, n < 3 * count → rng n = rng2 n) →
      asteroidPositions cosf sinf twoPi rng RAND_MAX count =
        asteroidPositions cosf sinf twoPi rng2 RAND_MAX count ∧
      asteroidScales rng RAND_MAX count = asteroidScales rng2 RAND_MAX count) := by
  have hq : ∀ n, (0 : ℚ) ≤ (rng n : ℚ) / (RAND_MAX : ℚ) ∧
      (rng n : ℚ) / (RAND_MAX : ℚ) ≤ 1 := by
    intro n
    constructor
    · exact div_nonneg (Nat.cast_nonneg _) (Nat.cast_nonneg _)
    · rcases Nat.eq_zero_or_pos RAND_MAX with h0 | hpos
      · have : rng n = 0 := by
          have := hbound n
          omega
        simp [this, h0]
      · rw [div_le_one (by exact_mod_cast hpos)]
        exact_mod_cast hbound n
  refine ⟨by simp [asteroidPositions], by simp [asteroidScales], ?_, ?_, ?_⟩
  · intro i hi
    unfold asteroidPositions
    rw [List.getD_eq_getElem?_getD, List.getElem?_map, List.getElem?_range hi]
    rfl
  · intro i
    unfold asteroidRadius
    have h := hq (3 * i)
    constructor <;> nlinarith [h.1, h.2]
  · intro rng2 hpre
    constructor
    · unfold asteroidPositions
      refine List.map_congr_left ?_
      intro i hi
      rw [List.mem_range] at hi
      unfold asteroidPosition asteroidRadius asteroidHeight
      rw [hpre (3 * i) (by omega), hpre (3 * i + 1) (by omega)]
    · unfold asteroidScales
      refine List.map_congr_left ?_
      intro i hi
      rw [List.mem_range] at hi
      unfold asteroidScale
      rw [hpre (3 * i + 2) (by omega)]

theorem claim_C8_asteroid_field_witness :
    (asteroidPositions cosSample sinSample 1 (fun _ => 0) 32767 3).length = 3 ∧
    5.5 ≤ asteroidRadius (fun _ => 0) 32767 0 ∧
    asteroidRadius (fun _ => 0) 32767 0 ≤ 8 := by
  have h := claim_C8_asteroid_field cosSample sinSample 1 (fun _ => 0) 32767 3
    (fun n => Nat.zero_le 32767)
  exact ⟨h.1, (h.2.2.2.1 0).1, (h.2.2.2.1 0).2⟩
